import Mathlib

/-!
Formal model of the adaptive resumable chunked-upload engine of the arosend
repository, embedded from src/app/components/TransferForm.tsx and
src/workers/app.ts.  JavaScript numbers are embedded as exact naturals,
integers or rationals; Math.floor, Math.round and Math.ceil on the
nonnegative values that occur are embedded as exact integer computations,
documented at each definition.
-/

namespace Arosend

/-- Network quality tiers of NetworkAdapter.connectionQuality
(TransferForm.tsx line 11). -/
inductive Quality where
  | excellent
  | good
  | fair
  | poor
  | unstable
deriving DecidableEq

/-- One mebibyte, the MB constant of the source. -/
def MB : ℕ := 1024 * 1024

/-- One gibibyte, the GB constant of the source. -/
def GB : ℕ := 1024 * MB

/-- Embedding of Math.round (x * a / b) for a natural x and a positive exact
decimal a / b: Math.round y = floor (y + 1/2) for nonnegative y, and
floor (x * a / b + 1/2) = (2 * a * x + b) / (2 * b) in natural division. -/
def jsRoundMulDiv (x a b : ℕ) : ℕ := (2 * a * x + b) / (2 * b)

/-- Embedding of Math.floor (x * a / b) for a natural x. -/
def jsFloorMulDiv (x a b : ℕ) : ℕ := a * x / b

/-- Embedding of Math.ceil (x / y) for naturals with y positive. -/
def jsCeilDiv (x y : ℕ) : ℕ := (x + y - 1) / y

/-- Speed multiplier of getAdaptiveChunkSize (lines 93-100) as an exact
numerator and denominator: 1.8, 1.4, 1.0, 0.8, 0.7. -/
def chunkQualityScale : Quality → ℕ × ℕ
  | .excellent => (9, 5)
  | .good => (7, 5)
  | .fair => (1, 1)
  | .poor => (4, 5)
  | .unstable => (7, 10)

/-- NetworkAdapter.getAdaptiveChunkSize (lines 67-106).  The optional
partNumber argument and the JS truthiness test partNumber && partNumber <= 3
are embedded as an Option with a nonzero test. -/
def getAdaptiveChunkSize (q : Quality) (fileSize : ℕ) (partNumber : Option ℕ) : ℕ :=
  if fileSize < 5 * MB then fileSize
  else
    let bracket : ℕ :=
      if fileSize < 100 * MB then 5 * MB
      else if fileSize < 1 * GB then 8 * MB
      else if fileSize < 10 * GB then 15 * MB
      else 25 * MB
    let baseChunkSize : ℕ :=
      match partNumber with
      | some pn => if pn ≠ 0 ∧ pn ≤ 3 then max (5 * MB) (min bracket (5 * MB)) else bracket
      | none => bracket
    let adaptiveChunkSize : ℕ :=
      jsRoundMulDiv baseChunkSize (chunkQualityScale q).1 (chunkQualityScale q).2
    max (5 * MB) (min (50 * MB) adaptiveChunkSize)

/-- calculateOptimalChunkSize (lines 574-583): getAdaptiveChunkSize with no
part number. -/
def calculateOptimalChunkSize (q : Quality) (fileSize : ℕ) : ℕ :=
  getAdaptiveChunkSize q fileSize none

/-- Line 814: isSingleUpload is BASE_CHUNK_SIZE >= file.size. -/
def isSingleUpload (q : Quality) (fileSize : ℕ) : Bool :=
  decide (fileSize ≤ calculateOptimalChunkSize q fileSize)

/-- Line 815: in the multipart path the chunk count is
Math.ceil (file.size / BASE_CHUNK_SIZE). -/
def totalChunksOf (fileSize baseChunkSize : ℕ) : ℕ := jsCeilDiv fileSize baseChunkSize

/-- NetworkAdapter.getOptimalChunkSizeForPart (lines 227-247).  The size
multiplier min (1 + increments * 0.25) 2.0 is the exact fraction
(min (4 + increments) 8) / 4, where increments = consecutiveSuccesses / 5. -/
def getOptimalChunkSizeForPart (q : Quality) (baseChunkSize partNumber consecutiveSuccesses : ℕ) : ℕ :=
  if partNumber ≤ 3 then max (5 * MB) (min baseChunkSize (5 * MB))
  else
    let scale : ℕ × ℕ :=
      if 5 ≤ consecutiveSuccesses ∧ q ≠ .poor ∧ q ≠ .unstable then
        (min (4 + consecutiveSuccesses / 5) 8, 4)
      else (1, 1)
    max (5 * MB) (min (50 * MB) (jsRoundMulDiv baseChunkSize scale.1 scale.2))

/-- Completed part record with partNumber and etag
(FileInfo.uploadedParts, line 268). -/
structure UploadPart where
  partNumber : ℕ
  etag : String
deriving DecidableEq

/-- Byte range actually transmitted for a part.  The upload callback
(lines 1170-1174) picks the optimal size for the part; uploadChunkWithRetry
(lines 929-937) then re-slices via StreamingFileReader.getChunk
(lines 314-319), whose start is the original boundary
(partNumber - 1) * chunkSize and whose end adds the dynamic size, clamped to
the file size. -/
def transmittedRange (q : Quality) (fileSize baseChunkSize consecutiveSuccesses partNumber : ℕ) :
    ℕ × ℕ :=
  ((partNumber - 1) * baseChunkSize,
    min ((partNumber - 1) * baseChunkSize +
      getOptimalChunkSizeForPart q baseChunkSize partNumber consecutiveSuccesses) fileSize)

/-- Whether byte b of the file lies in the transmitted range of some part
1..totalChunks. -/
def byteCovered (q : Quality) (fileSize baseChunkSize consecutiveSuccesses b : ℕ) : Bool :=
  (List.range (totalChunksOf fileSize baseChunkSize)).any fun i =>
    decide ((transmittedRange q fileSize baseChunkSize consecutiveSuccesses (i + 1)).1 ≤ b) &&
      decide (b < (transmittedRange q fileSize baseChunkSize consecutiveSuccesses (i + 1)).2)

/-- Result accumulation of streamingConcurrentUpload (line 376): each finished
upload pushes its part record onto uploadParts, in completion order. -/
def pushCompletions (uploadParts : List UploadPart) : List UploadPart → List UploadPart
  | [] => uploadParts
  | r :: rest => pushCompletions (uploadParts ++ [r]) rest

/-- completeFileUpload (lines 1241-1267) posts the uploadParts array verbatim
as the parts field, and the worker (workers/app.ts lines 663-714) passes
validatedData.parts to multipartUpload.complete unchanged, so this is the
parts list the completion call receives. -/
def partsSentToComplete (uploadParts : List UploadPart) : List UploadPart := uploadParts

/-- Parts list sorted in ascending order of partNumber. -/
def sortedByPartNumber (l : List UploadPart) : Prop :=
  List.Sorted (fun a b => a.partNumber < b.partNumber) l

/-- readChunks (lines 288-304) yields consecutive part numbers starting at 1. -/
def readPartNumbers (totalChunks : ℕ) : List ℕ := (List.range totalChunks).map (· + 1)

/-- Chunk staging of streamingConcurrentUpload (lines 335-366):
uploadedPartNumbers is the set of part numbers of the already-completed
uploadParts, and a produced chunk is queued for upload only when its part
number is not in that set. -/
def queuedParts (uploadParts : List UploadPart) (totalChunks : ℕ) : List ℕ :=
  (readPartNumbers totalChunks).filter
    fun n => !(uploadParts.map fun p => p.partNumber).contains n

/-- Pause-relevant per-job engine state: membership of the job in the
pausedUploads set (line 484), the aborted flag of the AbortController of the
job (line 854), the accumulated uploadParts, the in-flight part uploads, and
the log of part-upload requests actually sent. -/
structure JobState where
  pausedUploads : Bool
  aborted : Bool
  uploadParts : List UploadPart
  inFlight : List ℕ
  sentParts : List ℕ
deriving DecidableEq

/-- User and network events acting on a JobState. -/
inductive JobEvent where
  | pause
  | resume
  | dispatch (partNumber : ℕ)
  | completeOk (partNumber : ℕ) (etag : String)
  | fail (partNumber : ℕ)
deriving DecidableEq

/-- One engine step per event.  pause is pauseFileUpload (lines 1442-1456):
the job joins pausedUploads and its controller aborts, which cancels every
in-flight request without recording a part.  resume (lines 1506-1529) leaves
pausedUploads and restarts with a fresh controller.  dispatch is the entry
check of uploadChunkWithRetry (checkPauseOrAbort, lines 940-955): a paused or
aborted job rejects before xhr.send, otherwise the request is sent.
completeOk is the load handler (lines 996-1016) together with the push at
line 376.  fail is the error, abort or timeout handler (lines 1028-1064),
which never touches uploadParts. -/
def jobStep (s : JobState) : JobEvent → JobState
  | .pause => { s with pausedUploads := true, aborted := true, inFlight := [] }
  | .resume => { s with pausedUploads := false, aborted := false }
  | .dispatch n =>
      if s.pausedUploads || s.aborted then s
      else { s with inFlight := n :: s.inFlight, sentParts := s.sentParts ++ [n] }
  | .completeOk n e =>
      if s.inFlight.contains n then
        { s with uploadParts := s.uploadParts ++ [⟨n, e⟩], inFlight := s.inFlight.erase n }
      else s
  | .fail n => { s with inFlight := s.inFlight.erase n }

/-- A run of the engine over a list of events. -/
def jobRun (s : JobState) (evs : List JobEvent) : JobState := evs.foldl jobStep s

/-- Quality multiplier of getAdaptiveRetryDelay (lines 155-162):
0.5, 0.8, 1.0, 1.5, 3.0. -/
def retryQualityMultiplier : Quality → ℚ
  | .excellent => 1/2
  | .good => 4/5
  | .fair => 1
  | .poor => 3/2
  | .unstable => 3

/-- NetworkAdapter.getAdaptiveRetryDelay (lines 154-174). -/
def getAdaptiveRetryDelay (q : Quality) (baseDelay : ℚ) (retryCount : ℕ) : ℚ :=
  let qualityMultiplier := retryQualityMultiplier q
  let progressiveMultiplier : ℚ :=
    if q = .poor ∨ q = .unstable then 1 + (retryCount : ℚ) * (1/2) else 1
  let maxDelay : ℚ := if q = .poor ∨ q = .unstable then 60000 else 30000
  min (baseDelay * 2 ^ retryCount * qualityMultiplier * progressiveMultiplier) maxDelay

/-- Linear retry penalty as the specification words it: 1 + 0.5 n on the poor
and unstable tiers and 1 otherwise. -/
def specRetryPenalty (q : Quality) (n : ℕ) : ℚ :=
  if q = .poor ∨ q = .unstable then 1 + (1/2) * (n : ℚ) else 1

/-- Retry-delay cap as the specification words it: 60000 ms on poor and
unstable, 30000 ms otherwise. -/
def specRetryCap (q : Quality) : ℚ :=
  if q = .poor ∨ q = .unstable then 60000 else 30000

/-- MAX_RETRIES constant (line 817). -/
def MAX_RETRIES : ℕ := 3

/-- RETRY_DELAY base constant in ms (line 818). -/
def RETRY_DELAY : ℚ := 1000

/-- Failure of one upload attempt, as rejected by the xhr handlers of
uploadChunkWithRetry (lines 939-1069). -/
inductive ChunkError where
  | paused
  | cancelled
  | networkError
  | httpError (status : ℕ) (statusText : String)
  | invalidJson
  | timeout
deriving DecidableEq

/-- Error message strings produced by the handlers. -/
def ChunkError.message : ChunkError → String
  | .paused => "Upload paused"
  | .cancelled => "Upload cancelled"
  | .networkError => "Network error"
  | .httpError s t => "HTTP " ++ toString s ++ ": " ++ t
  | .invalidJson => "Invalid JSON response"
  | .timeout => "Upload timeout"

/-- JavaScript String.includes as a sublist test on the character data. -/
def strIncludes (s pat : String) : Bool := decide (pat.data <:+: s.data)

/-- Server-class test of the catch path (lines 1086-1091): the error message
contains 500, ERR_CONNECTION_ABORTED, ERR_EMPTY_RESPONSE or
Network connection lost. -/
def isServerClassError (e : ChunkError) : Bool :=
  strIncludes e.message "500" || strIncludes e.message "ERR_CONNECTION_ABORTED" ||
    strIncludes e.message "ERR_EMPTY_RESPONSE" || strIncludes e.message "Network connection lost"

/-- Delay waited before the next attempt (lines 1082-1094): the adaptive
delay, then multiplied by 3 (5 in development mode) when the failure is
server-class. -/
def retryDelayFor (q : Quality) (isDevelopment : Bool) (e : ChunkError) (retryCount : ℕ) : ℚ :=
  let d := getAdaptiveRetryDelay q RETRY_DELAY retryCount
  if isServerClassError e then d * (if isDevelopment then 5 else 3) else d

/-- Outcome of one uploadChunkWithRetry call chain: success, an immediately
propagated pause or cancel signal, or the final permanent failure of
line 1111 carrying the part number and the message of the last error. -/
inductive UploadOutcome where
  | ok (part : UploadPart)
  | signal (e : ChunkError)
  | uploadFailed (partNumber : ℕ) (cause : String)
deriving DecidableEq

/-- Recursive retry loop of uploadChunkWithRetry (lines 929-1113), driven by
an oracle giving the outcome of the attempt at each retryCount.  The first
component is the final outcome and the second the list of delays waited
before each retry.  The structural fuel argument is
MAX_RETRIES - retryCount, the number of retries still allowed by the
retryCount < MAX_RETRIES test at line 1081. -/
def uploadChunkRun (q : Quality) (isDev : Bool) (pn : ℕ)
    (attempts : ℕ → Except ChunkError UploadPart) :
    ℕ → ℕ → UploadOutcome × List ℚ
  | 0, retryCount =>
    match attempts retryCount with
    | .ok p => (.ok p, [])
    | .error e =>
      if e = .paused ∨ e = .cancelled then (.signal e, [])
      else (.uploadFailed pn (ChunkError.message e), [])
  | fuel + 1, retryCount =>
    match attempts retryCount with
    | .ok p => (.ok p, [])
    | .error e =>
      if e = .paused ∨ e = .cancelled then (.signal e, [])
      else
        ((uploadChunkRun q isDev pn attempts fuel (retryCount + 1)).1,
          retryDelayFor q isDev e retryCount ::
            (uploadChunkRun q isDev pn attempts fuel (retryCount + 1)).2)

/-- uploadChunkWithRetry started at retryCount 0 with full retry budget. -/
def uploadChunkWithRetry (q : Quality) (isDev : Bool) (pn : ℕ)
    (attempts : ℕ → Except ChunkError UploadPart) : UploadOutcome × List ℚ :=
  uploadChunkRun q isDev pn attempts MAX_RETRIES 0

/-- Message template of the final error thrown at line 1111. -/
def uploadFailedMessage (pn : ℕ) (cause : String) : String :=
  "Failed to upload part " ++ toString pn ++ " after " ++ toString (MAX_RETRIES + 1) ++
    " attempts: " ++ cause

/-- Governor state shared by the dispatch loop (lines 824, 836-838):
serverErrorCount, serverHealthy, CONCURRENT_UPLOADS and
consecutiveSuccesses. -/
structure GovernorState where
  serverErrorCount : ℕ
  serverHealthy : Bool
  concurrentUploads : ℕ
  consecutiveSuccesses : ℕ
deriving DecidableEq

/-- MAX_SERVER_ERRORS (line 837): the breaker threshold, 2 in development and
5 otherwise. -/
def MAX_SERVER_ERRORS (isDevelopment : Bool) : ℕ := if isDevelopment then 2 else 5

/-- Concurrency floor of the breaker (lines 1097-1099): 1 in development and
2 otherwise. -/
def concurrencyFloor (isDevelopment : Bool) : ℕ := if isDevelopment then 1 else 2

/-- Success bookkeeping of the load handler (lines 996-1016): only
consecutiveSuccesses changes; serverErrorCount is not touched anywhere on the
success path. -/
def onChunkSuccess (g : GovernorState) : GovernorState :=
  { g with consecutiveSuccesses := g.consecutiveSuccesses + 1 }

/-- Circuit-breaker reduction (lines 1097-1101): once serverErrorCount has
reached the threshold and concurrency is above the floor, concurrency becomes
max floor (Math.floor (C * 0.5)) in normal mode and
max 1 (Math.floor (C * 0.3)) in development mode.  The 0.3 case is embedded
as the exact fraction 3/10, which agrees with the IEEE double computation on
the reachable development concurrency range 1..4. -/
def circuitBreakerConcurrency (isDev : Bool) (serverErrorCount conc : ℕ) : ℕ :=
  if MAX_SERVER_ERRORS isDev ≤ serverErrorCount ∧ concurrencyFloor isDev < conc then
    max (concurrencyFloor isDev)
      (if isDev then jsFloorMulDiv conc 3 10 else jsFloorMulDiv conc 1 2)
  else conc

/-- Governor bookkeeping of the catch path for a retry-eligible failure
(lines 1071-1104): consecutiveSuccesses is reset on every error; a
server-class error additionally increments serverErrorCount, clears
serverHealthy and applies the circuit breaker. -/
def onRetryError (isDev : Bool) (g : GovernorState) (e : ChunkError) : GovernorState :=
  let g0 := { g with consecutiveSuccesses := 0 }
  if isServerClassError e then
    { g0 with
      serverErrorCount := g0.serverErrorCount + 1
      serverHealthy := false
      concurrentUploads := circuitBreakerConcurrency isDev (g0.serverErrorCount + 1) g0.concurrentUploads }
  else g0

/-- Progress-relevant state of uploadFileInChunks (lines 800-801): the
accumulated uploadParts and the chunkProgress map from part number to bytes
loaded so far. -/
structure ProgressState where
  uploadParts : List UploadPart
  chunkProgress : List (ℕ × ℕ)
deriving DecidableEq

/-- JavaScript Map.set: replace the entry with the key in place, or append a
new entry. -/
def mapSet (m : List (ℕ × ℕ)) (k v : ℕ) : List (ℕ × ℕ) :=
  if m.any fun e => e.1 == k then m.map fun e => if e.1 = k then (k, v) else e
  else m ++ [(k, v)]

/-- JavaScript Map.delete. -/
def mapDelete (m : List (ℕ × ℕ)) (k : ℕ) : List (ℕ × ℕ) :=
  m.filter fun e => !(e.1 == k)

/-- JavaScript chunkProgress.get(partNumber) with default 0 (line 977). -/
def mapLookup (m : List (ℕ × ℕ)) (k : ℕ) : ℕ :=
  match m.find? fun e => e.1 == k with
  | some e => e.2
  | none => 0

/-- uploadParts.find (p => p.partNumber === partNumber), line 905. -/
def isCompleted (uploadParts : List UploadPart) (k : ℕ) : Bool :=
  (uploadParts.find? fun p => p.partNumber == k).isSome

/-- Bytes credited for the completed parts (lines 896-900).  The identifier
CHUNK_SIZE is free in the source (the declared constant is BASE_CHUNK_SIZE),
so it is a parameter here; the subtraction is integer arithmetic as in JS. -/
def completedSum (CHUNK_SIZE fileSize : ℕ) : List UploadPart → ℤ
  | [] => 0
  | p :: rest =>
      min (CHUNK_SIZE : ℤ) ((fileSize : ℤ) - ((p.partNumber : ℤ) - 1) * (CHUNK_SIZE : ℤ)) +
        completedSum CHUNK_SIZE fileSize rest

/-- Bytes of in-flight chunks not already completed (lines 902-908). -/
def pendingBytesSum (uploadParts : List UploadPart) : List (ℕ × ℕ) → ℤ
  | [] => 0
  | e :: rest =>
      (if isCompleted uploadParts e.1 then 0 else (e.2 : ℤ)) + pendingBytesSum uploadParts rest

/-- totalBytesUploaded of updateRealTimeProgress (lines 893-908). -/
def totalBytesUploaded (CHUNK_SIZE fileSize : ℕ) (s : ProgressState) : ℤ :=
  completedSum CHUNK_SIZE fileSize s.uploadParts + pendingBytesSum s.uploadParts s.chunkProgress

/-- Math.round (t / fs * 100) as an exact integer computation:
floor (100 t / fs + 1/2) = fdiv (200 t + fs) (2 fs) for fs positive. -/
def jsRoundPct (t : ℤ) (fs : ℕ) : ℤ := Int.fdiv (200 * t + (fs : ℤ)) (2 * (fs : ℤ))

/-- Progress value computed by updateRealTimeProgress (line 910):
Math.min (Math.round (totalBytesUploaded / file.size * 100), 100). -/
def reportedProgress (CHUNK_SIZE fileSize : ℕ) (s : ProgressState) : ℤ :=
  min (jsRoundPct (totalBytesUploaded CHUNK_SIZE fileSize s) fileSize) 100

/-- Progress event handler (lines 969-993):
chunkProgress.set (partNumber, event.loaded). -/
def progressEventStep (s : ProgressState) (partNumber loaded : ℕ) : ProgressState :=
  { s with chunkProgress := mapSet s.chunkProgress partNumber loaded }

/-- Failure handlers (error, abort, timeout; lines 1028-1064):
chunkProgress.delete (partNumber). -/
def chunkFailureStep (s : ProgressState) (partNumber : ℕ) : ProgressState :=
  { s with chunkProgress := mapDelete s.chunkProgress partNumber }

/-- C1 counterexample: with parts 1 and 2 uploading concurrently, the
completion order part 2 then part 1 is possible, and then completeUpload
receives the parts list unsorted. -/
theorem c1_unsorted_counterexample :
    partsSentToComplete (pushCompletions [] [⟨2, "etagB"⟩, ⟨1, "etagA"⟩]) =
        [⟨2, "etagB"⟩, ⟨1, "etagA"⟩] ∧
      ¬ sortedByPartNumber
          (partsSentToComplete (pushCompletions [] [⟨2, "etagB"⟩, ⟨1, "etagA"⟩])) := by
  constructor
  · rfl
  · unfold sortedByPartNumber
    decide

/-- C1 amended: the parts list given to the completion call is exactly the
initial resumed parts followed by the new completions in the order they
completed; no sorting is applied anywhere on the way to
multipartUpload.complete. -/
theorem c1_parts_sent_in_completion_order (init completions : List UploadPart) :
    partsSentToComplete (pushCompletions init completions) = init ++ completions := by
  induction completions generalizing init with
  | nil => simp [pushCompletions, partsSentToComplete]
  | cons r rest ih =>
      simp only [pushCompletions, partsSentToComplete] at *
      rw [ih (init ++ [r])]
      simp

/-- C2 fails on the code: for a 200 MiB file on a good network the base chunk
size is 11744051 bytes, part 1 is re-sliced to the 5 MiB probing size from
offset 0 while part 2 starts at the original boundary 11744051, so byte
5242880 of the file lies in no transmitted range of any of the 18 parts. -/
theorem c2_coverage_gap :
    calculateOptimalChunkSize .good (200 * MB) = 11744051 ∧
      transmittedRange .good (200 * MB) 11744051 0 1 = (0, 5242880) ∧
      transmittedRange .good (200 * MB) 11744051 0 2 = (11744051, 16986931) ∧
      totalChunksOf (200 * MB) 11744051 = 18 ∧
      5242880 < 200 * MB ∧
      byteCovered .good (200 * MB) 11744051 0 5242880 = false := by
  decide

/-- C3 counterexample: on the good tier a 12 MiB file does not take the
single whole-file path, refuting the claim that it does on every tier. -/
theorem c3_twelve_mib_not_single : isSingleUpload .good (12 * MB) = false := by
  decide

/-- C3 amended: a 12 MiB file takes the multipart path on every tier; every
file strictly under 5 MiB takes the single whole-file path on every tier. -/
theorem c3_single_upload_threshold (q : Quality) :
    isSingleUpload q (12 * MB) = false ∧
      ∀ fileSize : ℕ, fileSize < 5 * MB → isSingleUpload q fileSize = true := by
  constructor
  · cases q <;> decide
  · intro fileSize h
    have hcalc : calculateOptimalChunkSize q fileSize = fileSize := by
      unfold calculateOptimalChunkSize getAdaptiveChunkSize
      rw [if_pos h]
    simp [isSingleUpload, hcalc]

/-- C3 witness: a 3 MiB file on the fair tier is a single whole-file upload. -/
theorem c3_single_upload_threshold_witness : isSingleUpload .fair (3 * MB) = true :=
  (c3_single_upload_threshold .fair).2 (3 * MB) (by decide)

/-- Helper for C4: once a job is aborted with no in-flight requests, any run
of events not containing resume leaves uploadParts and sentParts unchanged
and keeps the job aborted with no in-flight requests. -/
theorem jobRun_paused_frozen (evs : List JobEvent) :
    ∀ s : JobState, s.aborted = true → s.inFlight = [] →
      (∀ e ∈ evs, e ≠ JobEvent.resume) →
      (jobRun s evs).uploadParts = s.uploadParts ∧
        (jobRun s evs).sentParts = s.sentParts ∧
        (jobRun s evs).aborted = true ∧ (jobRun s evs).inFlight = [] := by
  induction evs with
  | nil => intro s ha hf _; exact ⟨rfl, rfl, ha, hf⟩
  | cons e rest ih =>
      intro s ha hf h
      have hrest : ∀ x ∈ rest, x ≠ JobEvent.resume := fun x hx => h x (List.mem_cons_of_mem _ hx)
      have he : e ≠ JobEvent.resume := h e (List.mem_cons_self _ _)
      have hrun : jobRun s (e :: rest) = jobRun (jobStep s e) rest := rfl
      cases e with
      | pause =>
          have step : jobStep s .pause =
              { s with pausedUploads := true, aborted := true, inFlight := [] } := rfl
          have := ih (jobStep s .pause) (by rw [step]) (by rw [step]) hrest
          rw [hrun]
          exact ⟨this.1, this.2.1, this.2.2⟩
      | resume => exact absurd rfl he
      | dispatch n =>
          have step : jobStep s (.dispatch n) = s := by
            unfold jobStep
            rw [ha]
            simp
          rw [hrun, step]
          exact ih s ha hf hrest
      | completeOk n e =>
          have step : jobStep s (.completeOk n e) = s := by
            unfold jobStep
            rw [hf]
            simp
          rw [hrun, step]
          exact ih s ha hf hrest
      | fail n =>
          have step : jobStep s (.fail n) = { s with inFlight := s.inFlight.erase n } := rfl
          have := ih (jobStep s (.fail n)) (by simp [step, ha]) (by simp [step, hf]) hrest
          rw [hrun]
          exact ⟨this.1, this.2.1, this.2.2⟩

/-- C4: after pause the uploadParts list of the job equals the list
immediately before the pause, and along any continuation that does not
contain resume no completed part is added or removed and no new part-upload
request is sent. -/
theorem c4_pause_preserves_parts_and_calls (s : JobState) (evs : List JobEvent)
    (h : ∀ e ∈ evs, e ≠ JobEvent.resume) :
    (jobStep s .pause).uploadParts = s.uploadParts ∧
      (jobRun (jobStep s .pause) evs).uploadParts = s.uploadParts ∧
      (jobRun (jobStep s .pause) evs).sentParts = s.sentParts := by
  have hfr := jobRun_paused_frozen evs (jobStep s .pause) rfl rfl h
  exact ⟨rfl, hfr.1, hfr.2.1⟩

/-- C4 witness: a concrete paused job with one completed part keeps its
uploadParts across a dispatch attempt, a late completion and a failure. -/
theorem c4_pause_witness :
    (jobRun (jobStep ⟨false, false, [⟨1, "a"⟩], [2], [1, 2]⟩ .pause)
        [.dispatch 3, .completeOk 2 "b", .fail 2]).uploadParts = [⟨1, "a"⟩] :=
  (c4_pause_preserves_parts_and_calls ⟨false, false, [⟨1, "a"⟩], [2], [1, 2]⟩
      [.dispatch 3, .completeOk 2 "b", .fail 2] (by decide)).2.1

/-- C9: a part number already present in the completed uploadParts is never
queued for upload by the resumed streaming loop. -/
theorem c9_resume_skips_completed (uploadParts : List UploadPart) (totalChunks n : ℕ)
    (h : n ∈ uploadParts.map fun p => p.partNumber) :
    n ∉ queuedParts uploadParts totalChunks := by
  intro hmem
  unfold queuedParts at hmem
  rw [List.mem_filter] at hmem
  have hn := hmem.2
  simp at hn
  rw [List.mem_map] at h
  obtain ⟨p, hp, hpn⟩ := h
  exact hn p hp hpn

/-- C9 witness: with part 2 already completed out of 3 chunks, part 2 is not
queued again. -/
theorem c9_resume_skips_completed_witness : 2 ∉ queuedParts [⟨2, "b"⟩] 3 :=
  c9_resume_skips_completed [⟨2, "b"⟩] 3 2 (by decide)

/-- Helper for C5: the number of recorded retry delays never exceeds the
fuel, so a full run makes at most MAX_RETRIES retries. -/
theorem uploadChunkRun_length (q : Quality) (d : Bool) (pn : ℕ)
    (attempts : ℕ → Except ChunkError UploadPart) :
    ∀ fuel k, (uploadChunkRun q d pn attempts fuel k).2.length ≤ fuel := by
  intro fuel
  induction fuel with
  | zero =>
      intro k
      cases h : attempts k with
      | ok p => simp [uploadChunkRun, h]
      | error e =>
          by_cases he : e = .paused ∨ e = .cancelled <;> simp [uploadChunkRun, h, he]
  | succ f ih =>
      intro k
      cases h : attempts k with
      | ok p => simp [uploadChunkRun, h]
      | error e =>
          by_cases he : e = .paused ∨ e = .cancelled
          · simp [uploadChunkRun, h, he]
          · simp only [uploadChunkRun, h, he, if_false, List.length_cons]
            exact Nat.succ_le_succ (ih (k + 1))

/-- Helper for C5: a pause or cancel failure propagates immediately with no
retry and no delay. -/
theorem uploadChunkRun_signal (q : Quality) (d : Bool) (pn : ℕ)
    (attempts : ℕ → Except ChunkError UploadPart) (fuel k : ℕ) (e : ChunkError)
    (h : attempts k = .error e) (he : e = .paused ∨ e = .cancelled) :
    uploadChunkRun q d pn attempts fuel k = (.signal e, []) := by
  cases fuel <;> simp [uploadChunkRun, h, he]

/-- Helper for C5: each recorded delay is the retryDelayFor value of the
non-signal error of the corresponding attempt. -/
theorem uploadChunkRun_delays (q : Quality) (d : Bool) (pn : ℕ)
    (attempts : ℕ → Except ChunkError UploadPart) :
    ∀ fuel k i, i < (uploadChunkRun q d pn attempts fuel k).2.length →
      ∃ e, attempts (k + i) = .error e ∧ e ≠ .paused ∧ e ≠ .cancelled ∧
        (uploadChunkRun q d pn attempts fuel k).2.getD i 0 = retryDelayFor q d e (k + i) := by
  intro fuel
  induction fuel with
  | zero =>
      intro k i hi
      exfalso
      cases h : attempts k with
      | ok p => simp [uploadChunkRun, h] at hi
      | error e =>
          by_cases he : e = .paused ∨ e = .cancelled <;> simp [uploadChunkRun, h, he] at hi
  | succ f ih =>
      intro k i hi
      cases h : attempts k with
      | ok p => exfalso; simp [uploadChunkRun, h] at hi
      | error e =>
          by_cases he : e = .paused ∨ e = .cancelled
          · exfalso; simp [uploadChunkRun, h, he] at hi
          · push_neg at he
            have hlen : (uploadChunkRun q d pn attempts (f + 1) k).2 =
                retryDelayFor q d e k :: (uploadChunkRun q d pn attempts f (k + 1)).2 := by
              simp [uploadChunkRun, h, he.1, he.2]
            cases i with
            | zero =>
                refine ⟨e, by simpa using h, he.1, he.2, ?_⟩
                rw [hlen]
                simp
            | succ j =>
                have hi2 : j < (uploadChunkRun q d pn attempts f (k + 1)).2.length := by
                  rw [hlen] at hi
                  simpa using hi
                obtain ⟨e2, ha, hp, hc, hg⟩ := ih (k + 1) j hi2
                refine ⟨e2, by rw [show k + (j + 1) = k + 1 + j by omega]; exact ha, hp, hc, ?_⟩
                rw [hlen, List.getD_cons_succ, hg, show k + 1 + j = k + (j + 1) by omega]

/-- Helper for C5: when every attempt up to the fuel fails with a non-signal
error, the run ends in the permanent uploadFailed outcome carrying the part
number and the message of the last error. -/
theorem uploadChunkRun_exhaust (q : Quality) (d : Bool) (pn : ℕ)
    (attempts : ℕ → Except ChunkError UploadPart) :
    ∀ fuel k,
      (∀ j, j ≤ fuel → ∃ e, attempts (k + j) = .error e ∧ e ≠ .paused ∧ e ≠ .cancelled) →
      ∃ e, attempts (k + fuel) = .error e ∧
        (uploadChunkRun q d pn attempts fuel k).1 = .uploadFailed pn (ChunkError.message e) := by
  intro fuel
  induction fuel with
  | zero =>
      intro k hall
      obtain ⟨e, ha, hp, hc⟩ := hall 0 (le_refl 0)
      rw [Nat.add_zero] at ha
      exact ⟨e, by simpa using ha, by simp [uploadChunkRun, ha, hp, hc]⟩
  | succ f ih =>
      intro k hall
      obtain ⟨e, ha, hp, hc⟩ := hall 0 (Nat.zero_le _)
      rw [Nat.add_zero] at ha
      have hall2 : ∀ j, j ≤ f → ∃ e2, attempts (k + 1 + j) = .error e2 ∧
          e2 ≠ .paused ∧ e2 ≠ .cancelled := by
        intro j hj
        obtain ⟨e2, ha2, hp2, hc2⟩ := hall (j + 1) (by omega)
        exact ⟨e2, by rw [show k + 1 + j = k + (j + 1) by omega]; exact ha2, hp2, hc2⟩
      obtain ⟨e2, ha2, hres⟩ := ih (k + 1) hall2
      refine ⟨e2, by rw [show k + (f + 1) = k + 1 + f by omega]; exact ha2, ?_⟩
      rw [← hres]
      simp [uploadChunkRun, ha, hp, hc]

/-- C5 amended: a Paused or Cancelled failure propagates immediately with no
retry and no delay; any other failure is retried at most MAX_RETRIES = 3
times (at most 4 attempts); the delay before retry number i is
retryDelayFor, which is the adaptive retry delay multiplied by 3 (5 in
development mode) when the failure is server-class and the adaptive delay
unchanged otherwise; and when all 4 attempts fail with retryable errors the
outcome is uploadFailed with the part number and the cause message. -/
theorem c5_retry_policy (q : Quality) (d : Bool) (pn : ℕ)
    (attempts : ℕ → Except ChunkError UploadPart) :
    (∀ e, attempts 0 = .error e → e = .paused ∨ e = .cancelled →
        uploadChunkWithRetry q d pn attempts = (.signal e, [])) ∧
      (uploadChunkWithRetry q d pn attempts).2.length ≤ MAX_RETRIES ∧
      (∀ i, i < (uploadChunkWithRetry q d pn attempts).2.length →
        ∃ e, attempts i = .error e ∧ e ≠ .paused ∧ e ≠ .cancelled ∧
          (uploadChunkWithRetry q d pn attempts).2.getD i 0 = retryDelayFor q d e i) ∧
      ((∀ j, j ≤ MAX_RETRIES → ∃ e, attempts j = .error e ∧ e ≠ .paused ∧ e ≠ .cancelled) →
        ∃ e, attempts MAX_RETRIES = .error e ∧
          (uploadChunkWithRetry q d pn attempts).1 = .uploadFailed pn (ChunkError.message e)) := by
  refine ⟨?_, ?_, ?_, ?_⟩
  · intro e h he
    exact uploadChunkRun_signal q d pn attempts MAX_RETRIES 0 e h he
  · exact uploadChunkRun_length q d pn attempts MAX_RETRIES 0
  · intro i hi
    have := uploadChunkRun_delays q d pn attempts MAX_RETRIES 0 i hi
    simpa using this
  · intro hall
    have := uploadChunkRun_exhaust q d pn attempts MAX_RETRIES 0 (by simpa using hall)
    simpa using this

/-- C5 witness: a run whose first attempt is rejected as paused propagates
the pause immediately with no retry. -/
theorem c5_retry_policy_witness :
    uploadChunkWithRetry .good false 9 (fun _ => .error .paused) = (.signal .paused, []) :=
  (c5_retry_policy .good false 9 fun _ => .error .paused).1 .paused rfl (Or.inl rfl)

/-- C5 counterexample: a server-class failure of the first attempt is delayed
by three times the adaptive retry delay, not by the adaptive retry delay
itself, refuting the claim that each retry is delayed by adaptiveRetryDelay. -/
theorem c5_server_delay_counterexample :
    (uploadChunkWithRetry .fair false 7 fun k =>
        if k = 0 then .error (.httpError 500 "Internal Server Error") else .ok ⟨7, "e7"⟩).2 =
      [getAdaptiveRetryDelay .fair RETRY_DELAY 0 * 3] ∧
      getAdaptiveRetryDelay .fair RETRY_DELAY 0 * 3 ≠ getAdaptiveRetryDelay .fair RETRY_DELAY 0 := by
  constructor
  · have hsc : isServerClassError (.httpError 500 "Internal Server Error") = true := by decide
    simp [uploadChunkWithRetry, MAX_RETRIES, uploadChunkRun, retryDelayFor, hsc]
  · have hval : getAdaptiveRetryDelay .fair RETRY_DELAY 0 = 1000 := by
      simp [getAdaptiveRetryDelay, retryQualityMultiplier, RETRY_DELAY]
      norm_num
    rw [hval]
    norm_num

/-- C6 counterexample: five consecutive HTTP 503 responses are 5xx, but the
code classifies server errors by the substring 500 of the message, so at
concurrency 6 the governor leaves concurrency at 6 instead of
max 2 (floor (6 * 0.5)) = 3. -/
theorem c6_5xx_counterexample :
    ((List.replicate 5 (ChunkError.httpError 503 "Service Unavailable")).foldl
        (onRetryError false) ⟨0, true, 6, 0⟩).concurrentUploads = 6 ∧
      (6 : ℕ) ≠ max 2 (6 / 2) := by
  constructor <;> decide

/-- C6 amended: with the server classification the code actually uses (an
error message containing 500, ERR_CONNECTION_ABORTED, ERR_EMPTY_RESPONSE or
Network connection lost), five consecutive such errors from a zero count at
concurrency C > 2 set concurrency to max 2 (floor (C * 0.5)); in development
mode the threshold is 2, the floor is 1 and the factor is 0.3, stated on the
reachable development concurrency range 1 < D <= 4 where the exact fraction
3/10 agrees with the IEEE computation. -/
theorem c6_circuit_breaker (C : ℕ) (errors : List ChunkError)
    (hC : 2 < C) (hlen : errors.length = 5)
    (hsrv : ∀ e ∈ errors, isServerClassError e = true) :
    (errors.foldl (onRetryError false) ⟨0, true, C, 0⟩).concurrentUploads = max 2 (C / 2) ∧
      ∀ D : ℕ, 1 < D → D ≤ 4 → ∀ errors2 : List ChunkError, errors2.length = 2 →
        (∀ e ∈ errors2, isServerClassError e = true) →
        (errors2.foldl (onRetryError true) ⟨0, true, D, 0⟩).concurrentUploads =
          max 1 (3 * D / 10) := by
  constructor
  · rcases errors with _ | ⟨a, errors⟩
    · simp at hlen
    rcases errors with _ | ⟨b, errors⟩
    · simp at hlen
    rcases errors with _ | ⟨c, errors⟩
    · simp at hlen
    rcases errors with _ | ⟨d, errors⟩
    · simp at hlen
    rcases errors with _ | ⟨e, errors⟩
    · simp at hlen
    simp only [List.length_cons] at hlen
    have hnil : errors = [] := List.length_eq_zero.mp (by omega)
    subst hnil
    have ha := hsrv a (by simp)
    have hb := hsrv b (by simp)
    have hc := hsrv c (by simp)
    have hd := hsrv d (by simp)
    have he := hsrv e (by simp)
    simp only [List.foldl_cons, List.foldl_nil]
    simp [onRetryError, ha, hb, hc, hd, he, circuitBreakerConcurrency, MAX_SERVER_ERRORS,
      concurrencyFloor, jsFloorMulDiv, hC, Nat.one_mul]
  · intro D hD _hD4 errors2 hlen2 hsrv2
    rcases errors2 with _ | ⟨a, errors2⟩
    · simp at hlen2
    rcases errors2 with _ | ⟨b, errors2⟩
    · simp at hlen2
    simp only [List.length_cons] at hlen2
    have hnil : errors2 = [] := List.length_eq_zero.mp (by omega)
    subst hnil
    have ha := hsrv2 a (by simp)
    have hb := hsrv2 b (by simp)
    simp only [List.foldl_cons, List.foldl_nil]
    simp [onRetryError, ha, hb, circuitBreakerConcurrency, MAX_SERVER_ERRORS,
      concurrencyFloor, jsFloorMulDiv, hD]

/-- C6 witness: five HTTP 500 errors at concurrency 6 in normal mode reduce
concurrency to max 2 (6 / 2) = 3. -/
theorem c6_circuit_breaker_witness :
    ((List.replicate 5 (ChunkError.httpError 500 "Internal Server Error")).foldl
        (onRetryError false) ⟨0, true, 6, 0⟩).concurrentUploads = max 2 (6 / 2) :=
  (c6_circuit_breaker 6 (List.replicate 5 (ChunkError.httpError 500 "Internal Server Error"))
      (by decide) (by decide) (by decide)).1

/-- C7 counterexample: a successful attempt does not reset the server-error
counter: from a state with three recorded server errors the counter is still
3 after the success, not 0. -/
theorem c7_success_no_reset_counterexample :
    (onChunkSuccess ⟨3, false, 4, 0⟩).serverErrorCount = 3 ∧ (3 : ℕ) ≠ 0 := by
  constructor <;> decide

/-- C7 amended: a successful attempt increments the consecutive-success
counter and leaves the server-error counter unchanged (it is never reset);
a server-class error on a retry-eligible attempt increments the server-error
counter, and every retry-eligible failure resets the consecutive-success
counter to zero. -/
theorem c7_governor_counters (g : GovernorState) (isDev : Bool) (e : ChunkError) :
    (onChunkSuccess g).consecutiveSuccesses = g.consecutiveSuccesses + 1 ∧
      (onChunkSuccess g).serverErrorCount = g.serverErrorCount ∧
      (isServerClassError e = true →
        (onRetryError isDev g e).serverErrorCount = g.serverErrorCount + 1) ∧
      (onRetryError isDev g e).consecutiveSuccesses = 0 := by
  refine ⟨rfl, rfl, fun hs => ?_, ?_⟩
  · simp [onRetryError, hs]
  · by_cases hs : isServerClassError e <;> simp [onRetryError, hs]

/-- C7 witness: an HTTP 500 error on a retry-eligible attempt takes the
server-error counter from 0 to 1. -/
theorem c7_governor_counters_witness :
    (onRetryError false ⟨0, true, 4, 7⟩ (.httpError 500 "Internal Server Error")).serverErrorCount =
      0 + 1 :=
  (c7_governor_counters ⟨0, true, 4, 7⟩ false (.httpError 500 "Internal Server Error")).2.2.1
    (by decide)

/-- C8 counterexample: with no completed parts and 2 MiB of pending loaded bytes
on part 1 of a 10 MiB file the reported progress is 20; the failure handler
deletes the pending bytes and the next reported value is 0, so the reported
progress decreases. -/
theorem c8_progress_drop_counterexample :
    reportedProgress (5 * MB) (10 * MB) (chunkFailureStep ⟨[], [(1, 2 * MB)]⟩ 1) <
      reportedProgress (5 * MB) (10 * MB) ⟨[], [(1, 2 * MB)]⟩ := by
  decide

/-- Helper for C8: replacing entries of a key that does not occur leaves the
list unchanged. -/
theorem map_replace_no_key (m : List (ℕ × ℕ)) (k v : ℕ) (h : ∀ e ∈ m, e.1 ≠ k) :
    (m.map fun e => if e.1 = k then (k, v) else e) = m := by
  induction m with
  | nil => rfl
  | cons a t ih =>
      have ha := h a (List.mem_cons_self _ _)
      have ht := ih fun x hx => h x (List.mem_cons_of_mem _ hx)
      simp [ha, ht]

/-- Helper for C8: Map.set commutes with a head entry of a different key. -/
theorem mapSet_cons_ne (a : ℕ × ℕ) (t : List (ℕ × ℕ)) (k v : ℕ) (h : a.1 ≠ k) :
    mapSet (a :: t) k v = a :: mapSet t k v := by
  unfold mapSet
  by_cases ht : t.any fun e => e.1 == k
  · simp [List.any_cons, ht, h]
  · simp [List.any_cons, ht, h]

/-- Helper for C8: with distinct keys, setting a key to a value at least its
current value can only grow the pending-bytes sum. -/
theorem pendingBytesSum_mapSet_le (up : List UploadPart) (m : List (ℕ × ℕ)) (k v : ℕ)
    (hnd : (m.map Prod.fst).Nodup) (hv : mapLookup m k ≤ v) :
    pendingBytesSum up m ≤ pendingBytesSum up (mapSet m k v) := by
  induction m with
  | nil =>
      simp only [mapSet, List.any_nil, if_neg Bool.false_ne_true, List.nil_append]
      simp only [pendingBytesSum]
      split
      · omega
      · positivity
  | cons a t ih =>
      simp only [List.map_cons, List.nodup_cons] at hnd
      by_cases hak : a.1 = k
      · have hset : mapSet (a :: t) k v = (k, v) :: t := by
          unfold mapSet
          rw [if_pos (by simp [List.any_cons, hak])]
          have hnok : ∀ e ∈ t, e.1 ≠ k := by
            intro e he hek
            exact hnd.1 (hak ▸ hek ▸ List.mem_map_of_mem Prod.fst he)
          simp only [List.map_cons, if_pos hak, map_replace_no_key t k v hnok]
        have hlook : mapLookup (a :: t) k = a.2 := by
          unfold mapLookup
          rw [List.find?_cons_of_pos _ (by simp [hak])]
        rw [hset]
        simp only [pendingBytesSum]
        have h2 : (a.2 : ℤ) ≤ (v : ℤ) := by
          exact_mod_cast hlook ▸ hv
        rw [hak]
        by_cases hcomp : isCompleted up k
        · simp [hcomp]
        · rw [if_neg (by simp [hcomp]), if_neg (by simp [hcomp])]
          omega
      · have hlook : mapLookup (a :: t) k = mapLookup t k := by
          unfold mapLookup
          rw [List.find?_cons_of_neg _ (by simp [hak])]
        rw [mapSet_cons_ne a t k v hak]
        simp only [pendingBytesSum]
        have := ih hnd.2 (hlook ▸ hv)
        omega

/-- Helper for C8: the rounded percentage is monotone in the byte count. -/
theorem jsRoundPct_mono (t t2 : ℤ) (fs : ℕ) (h : t ≤ t2) :
    jsRoundPct t fs ≤ jsRoundPct t2 fs := by
  unfold jsRoundPct
  rcases Nat.eq_zero_or_pos fs with h0 | h0
  · subst h0
    simp [Int.fdiv_zero]
  · have hpos : (0 : ℤ) < 2 * (fs : ℤ) := by positivity
    rw [Int.fdiv_eq_ediv _ (le_of_lt hpos), Int.fdiv_eq_ediv _ (le_of_lt hpos)]
    exact Int.ediv_le_ediv hpos (by omega)

/-- C8 amended: the reported progress is monotone under in-flight progress
events (the loaded byte count of an attempt only grows), with the map keys
distinct as for a JS Map; it is the deletion performed by the failure
handlers that can make the reported value decrease. -/
theorem c8_progress_event_monotone (CHUNK_SIZE fileSize : ℕ) (s : ProgressState)
    (pn loaded : ℕ) (hnd : (s.chunkProgress.map Prod.fst).Nodup)
    (hle : mapLookup s.chunkProgress pn ≤ loaded) :
    reportedProgress CHUNK_SIZE fileSize s ≤
      reportedProgress CHUNK_SIZE fileSize (progressEventStep s pn loaded) := by
  have htb : totalBytesUploaded CHUNK_SIZE fileSize s ≤
      totalBytesUploaded CHUNK_SIZE fileSize (progressEventStep s pn loaded) := by
    have := pendingBytesSum_mapSet_le s.uploadParts s.chunkProgress pn loaded hnd hle
    unfold totalBytesUploaded progressEventStep
    dsimp only
    omega
  unfold reportedProgress
  exact min_le_min (jsRoundPct_mono _ _ fileSize htb) (le_refl 100)

/-- C8 witness: growing the pending loaded bytes of part 1 from 2 MiB to 3 MiB
does not decrease the reported progress. -/
theorem c8_progress_event_monotone_witness :
    reportedProgress (5 * MB) (10 * MB) ⟨[], [(1, 2 * MB)]⟩ ≤
      reportedProgress (5 * MB) (10 * MB) (progressEventStep ⟨[], [(1, 2 * MB)]⟩ 1 (3 * MB)) :=
  c8_progress_event_monotone (5 * MB) (10 * MB) ⟨[], [(1, 2 * MB)]⟩ 1 (3 * MB)
    (by decide) (by decide)

/-- C10: for every base delay b at least 0 and attempt number n, the adaptive
retry delay equals min (b * 2 ^ n * q * p) cap, where q is the quality
multiplier with value 1/2 on excellent and 3 on unstable, p is 1 + n/2 on
the poor and unstable tiers and 1 otherwise, and cap is 60000 ms on poor and
unstable and 30000 ms on the other tiers. -/
theorem c10_retry_delay_formula (q : Quality) (b : ℚ) (n : ℕ) (_hb : 0 ≤ b) :
    getAdaptiveRetryDelay q b n =
      min (b * 2 ^ n * retryQualityMultiplier q * specRetryPenalty q n) (specRetryCap q) ∧
      retryQualityMultiplier .excellent = 1 / 2 ∧ retryQualityMultiplier .unstable = 3 := by
  refine ⟨?_, rfl, rfl⟩
  unfold getAdaptiveRetryDelay specRetryPenalty specRetryCap
  cases q <;> simp <;> ring_nf

/-- C10 witness: the formula instantiated at the excellent tier with base
delay 0 and attempt 2. -/
theorem c10_retry_delay_formula_witness :
    getAdaptiveRetryDelay .excellent 0 2 =
      min ((0 : ℚ) * 2 ^ (2 : ℕ) * retryQualityMultiplier .excellent *
          specRetryPenalty .excellent 2) (specRetryCap .excellent) ∧
      retryQualityMultiplier .excellent = 1 / 2 ∧ retryQualityMultiplier .unstable = 3 :=
  c10_retry_delay_formula .excellent 0 2 (le_refl 0)

end Arosend
